import Mathlib

/-!
Shallow embedding of the `fun_run` crate's core (src/command.rs and the
error/result layer of src/lib.rs), together with proofs about the claims of
its specification.

Modelling conventions:
* bytes are `Nat`, byte buffers (`Vec<u8>`) are `List Nat`;
* `std::io::Error` is `IoError`, carrying its optional raw OS code and its
  display string;
* `std::process::ExitStatus` (unix) is a wrapper around the raw wait status
  (an `Int`), with `code`/`success` following the unix `WIFEXITED` /
  `WEXITSTATUS` semantics used by the Rust standard library;
* a writable sink (`impl std::io::Write`) is a state type `σ` together with
  a `WriteImpl σ` record giving `write_all` and `flush` as state transformers
  that may fail with an `IoError`;
* an in-memory `Vec<u8>` sink is the infallible writer `vec_writer` over
  `List Nat` states.
-/

/-- The data of a `std::io::Error`: its optional raw OS error code
(`raw_os_error()`) and its `Display` rendering (`to_string()`). -/
structure IoError where
  raw_os_error : Option Int
  message : String
deriving DecidableEq, Repr

/-- Unix `std::process::ExitStatus`: the raw wait status as used by
`ExitStatusExt::from_raw`. -/
structure ExitStatus where
  raw : Int
deriving DecidableEq, Repr

/-- `ExitStatusExt::from_raw`. -/
def ExitStatus.from_raw (raw : Int) : ExitStatus := ⟨raw⟩

/-- `ExitStatus::code()`: `Some(WEXITSTATUS)` when `WIFEXITED` (low seven
bits of the wait status are zero), `None` otherwise. Bit masking/shifting is
expressed with euclidean `emod`/`ediv`, which agree with two's-complement
masking and arithmetic shifting on `i32` values. -/
def ExitStatus.code (s : ExitStatus) : Option Int :=
  if s.raw.emod 128 == 0 then some ((s.raw.ediv 256).emod 256) else none

/-- `ExitStatus::success()`: the process exited normally with code 0. -/
def ExitStatus.success (s : ExitStatus) : Bool :=
  s.code == some 0

/-- `std::process::Output`: exit status plus the two captured byte buffers. -/
structure Output where
  status : ExitStatus
  stdout : List Nat
  stderr : List Nat
deriving DecidableEq, Repr

/-- An abstract `impl std::io::Write` over sink states `σ`: `write_all`
writes a whole buffer (or fails), `flush` flushes (or fails). -/
structure WriteImpl (σ : Type) where
  write_all : σ → List Nat → Except IoError σ
  flush : σ → Except IoError σ

/-- The `Write` impl of an in-memory `Vec<u8>`: `write_all` appends the
buffer and never fails, `flush` is a no-op. -/
def vec_writer : WriteImpl (List Nat) where
  write_all s buf := .ok (s ++ buf)
  flush s := .ok s

/-- src/command.rs lines 89-94: a tee writer pairing sink state A (the
capture buffer) with sink state B (the external sink). -/
structure TeeWrite (α β : Type) where
  inner_a : α
  inner_b : β
deriving DecidableEq, Repr

/-- src/command.rs lines 82-87: `tee(a, b)` constructs a `TeeWrite`. -/
def tee (a : α) (b : β) : TeeWrite α β := ⟨a, b⟩

/-- src/command.rs lines 97-101, `TeeWrite::write`: `write_all` the buffer
to sink A; if that succeeds `write_all` it to sink B; on success return the
buffer's full length. The `?` on A's write short-circuits before B is
touched. -/
def TeeWrite.write (wa : WriteImpl α) (wb : WriteImpl β) (t : TeeWrite α β)
    (buf : List Nat) : Except IoError (TeeWrite α β × Nat) :=
  match wa.write_all t.inner_a buf with
  | .error e => .error e
  | .ok a1 =>
    match wb.write_all t.inner_b buf with
    | .error e => .error e
    | .ok b1 => .ok (⟨a1, b1⟩, buf.length)

/-- src/command.rs lines 103-106, `TeeWrite::flush`: flush sink A; only if
that succeeds, flush sink B. -/
def TeeWrite.flush (wa : WriteImpl α) (wb : WriteImpl β) (t : TeeWrite α β) :
    Except IoError (TeeWrite α β) :=
  match wa.flush t.inner_a with
  | .error e => .error e
  | .ok a1 =>
    match wb.flush t.inner_b with
    | .error e => .error e
    | .ok b1 => .ok ⟨a1, b1⟩

/-- Driving a `TeeWrite` with a sequence of chunks: perform
`TeeWrite::write` on each chunk in order, stopping at the first error, and
collect the returned byte counts. This is how a caller (such as
`std::io::copy`) delivers a stream chunk by chunk through the tee. -/
def TeeWrite.writeChunks (wa : WriteImpl α) (wb : WriteImpl β) (t : TeeWrite α β)
    (chunks : List (List Nat)) : Except IoError (TeeWrite α β × List Nat) :=
  match chunks with
  | [] => .ok (t, [])
  | c :: rest =>
    match t.write wa wb c with
    | .error e => .error e
    | .ok (t1, n) =>
      match t1.writeChunks wa wb rest with
      | .error e => .error e
      | .ok (t2, ns) => .ok (t2, n :: ns)

/-- A spawned `std::process::Child` with piped stdout/stderr: the pipe
handles are `Option` byte streams (a handle holds the full byte sequence
the child will ever write to that descriptor), `mem::take`-able, plus the
exit status that `child.wait()` will report. (`wait` errors, an OS-level
exotic, are not modelled.) -/
structure Child where
  stdout : Option (List Nat)
  stderr : Option (List Nat)
  wait_status : ExitStatus
deriving DecidableEq, Repr

/-- src/command.rs lines 6-54, `output_and_write_streams`. The argument
`spawn_result` is the outcome of `.spawn()` at lines 17-20 (`.error` models
a spawn failure, which the `?` returns immediately). External sinks are
in-memory byte lists (their pre-call contents are the `stdout_write` /
`stderr_write` arguments). Returns the `io::Result<process::Output>`
together with the final states of the two external sinks.

Faithful to the source, the "stderr" drain thread at line 26 takes
`child.stdout` a second time (not `child.stderr`); since the first take at
line 23 already replaced `child.stdout` by `None`, that thread is never
spawned. `std::io::copy` of an in-memory stream through a tee onto two
infallible `Vec` sinks is one `TeeWrite::write` of the whole stream (its
chunk-by-chunk behaviour collapses; see `writeChunks_vec_ok`). -/
def output_and_write_streams (spawn_result : Except IoError Child)
    (stdout_write stderr_write : List Nat) :
    Except IoError Output × List Nat × List Nat :=
  let stdout_buffer : List Nat := []
  let stderr_buffer : List Nat := []
  let stdout0 := tee stdout_buffer stdout_write
  let stderr0 := tee stderr_buffer stderr_write
  match spawn_result with
  | .error e => (.error e, stdout_write, stderr_write)
  | .ok child =>
    -- lines 23-25: mem::take(&mut child.stdout) for the stdout drain thread
    let taken_for_stdout_thread := child.stdout
    let child := { child with stdout := (none : Option (List Nat)) }
    -- line 26: the source takes child.stdout AGAIN here, not child.stderr
    let taken_for_stderr_thread := child.stdout
    let child := { child with stdout := (none : Option (List Nat)) }
    let stdout_thread := taken_for_stdout_thread.map fun child_stdout =>
      TeeWrite.write vec_writer vec_writer stdout0 child_stdout
    let stderr_thread := taken_for_stderr_thread.map fun child_stderr =>
      TeeWrite.write vec_writer vec_writer stderr0 child_stderr
    -- final tee states after the drain threads ran (a thread that was not
    -- spawned leaves its tee untouched; drains onto Vec sinks cannot fail)
    let stdout_final := match stdout_thread with
      | some (.ok (t, _)) => t
      | some (.error _) => stdout0
      | none => stdout0
    let stderr_final := match stderr_thread with
      | some (.ok (t, _)) => t
      | some (.error _) => stderr0
      | none => stderr0
    -- lines 30-46: join each thread, map_or_else giving Ok(0) for a thread
    -- that was never spawned (panic propagation is modelled separately by
    -- scope_join, as pure drains cannot panic)
    let join_stdout : Except IoError Nat := match stdout_thread with
      | none => .ok 0
      | some r => r.map fun p => p.2
    let join_stderr : Except IoError Nat := match stderr_thread with
      | none => .ok 0
      | some r => r.map fun p => p.2
    -- lines 38-47: .and(...) then .and_then(|_| child.wait())
    let status_result : Except IoError ExitStatus :=
      match join_stdout with
      | .error e => .error e
      | .ok _ =>
        match join_stderr with
        | .error e => .error e
        | .ok _ => .ok child.wait_status
    -- lines 49-53: assemble the Output from the two capture buffers
    (status_result.map fun status =>
      { status := status,
        stdout := stdout_final.inner_a,
        stderr := stderr_final.inner_a },
     stdout_final.inner_b, stderr_final.inner_b)

/-- The payload-carrying result of `JoinHandle::join`: either the thread's
return value, or the panic payload of a thread that panicked. -/
inductive JoinResult (π α : Type) where
  | finished (value : α)
  | panicked (payload : π)
deriving DecidableEq, Repr

/-- src/command.rs lines 30-37 and 39-45: join one optional drain thread;
an absent thread yields `Ok(0)` (the `map_or_else` default), a finished
thread yields its value, and a panicked thread has its payload re-raised by
`panic::resume_unwind` — modelled as the `.error` of the outer `Except π`,
which aborts the whole scope. -/
def join_or_resume (t : Option (JoinResult π (Except IoError Nat))) :
    Except π (Except IoError Nat) :=
  match t with
  | none => .ok (.ok 0)
  | some (.finished v) => .ok v
  | some (.panicked p) => .error p

/-- src/command.rs lines 30-47, the body of `thread::scope` after both
drain threads ran: join the stdout thread (resuming its panic if it
panicked), then the stderr thread likewise, then `Result::and` the two
I/O results and `and_then(|_| child.wait())`. -/
def scope_join (stdout_thread stderr_thread : Option (JoinResult π (Except IoError Nat)))
    (wait : Except IoError ExitStatus) : Except π (Except IoError ExitStatus) :=
  match join_or_resume stdout_thread with
  | .error p => .error p
  | .ok r1 =>
    match join_or_resume stderr_thread with
    | .error p => .error p
    | .ok r2 =>
      .ok (match r1 with
        | .error e => .error e
        | .ok _ =>
          match r2 with
          | .error e => .error e
          | .ok _ => wait)

/-- src/lib.rs lines 589-593: a command's `Output` together with the
command's display name. -/
structure NamedOutput where
  name : String
  output : Output
deriving DecidableEq, Repr

/-- src/lib.rs line 629: `NamedOutput::status` returns the output's status. -/
def NamedOutput.status (n : NamedOutput) : ExitStatus :=
  n.output.status

/-- src/lib.rs lines 783-789: the error type of a fun run. -/
inductive CmdError where
  | SystemError (name : String) (error : IoError)
  | NonZeroExitNotStreamed (named_output : NamedOutput)
  | NonZeroExitAlreadyStreamed (named_output : NamedOutput)
deriving DecidableEq, Repr

/-- src/lib.rs lines 852-859: `CmdError::name` recovers the command name
from any variant. -/
def CmdError.name (e : CmdError) : String :=
  match e with
  | .SystemError name _ => name
  | .NonZeroExitNotStreamed out => out.name
  | .NonZeroExitAlreadyStreamed out => out.name

/-- src/lib.rs lines 864-872: `CmdError::status`: the wrapped output's
status for the non-zero-exit variants, and for `SystemError` an
`ExitStatus` built from the raw OS error code, defaulting to -1. -/
def CmdError.status (e : CmdError) : ExitStatus :=
  match e with
  | .SystemError _ error => ExitStatus.from_raw (error.raw_os_error.getD (-1))
  | .NonZeroExitNotStreamed named_output => named_output.status
  | .NonZeroExitAlreadyStreamed named_output => named_output.status

/-- The UTF-8 bytes of a string, as `String::into_bytes` produces. -/
def strBytes (s : String) : List Nat :=
  s.toUTF8.toList.map fun b => b.toNat

/-- src/lib.rs lines 875-890: `impl From<CmdError> for NamedOutput`. -/
def NamedOutput.fromCmdError (value : CmdError) : NamedOutput :=
  match value with
  | .SystemError name error =>
    { name := name,
      output :=
        { status := ExitStatus.from_raw (error.raw_os_error.getD (-1)),
          stdout := [],
          stderr := strBytes error.message } }
  | .NonZeroExitNotStreamed named => named
  | .NonZeroExitAlreadyStreamed named => named

/-- src/lib.rs lines 921-931: `nonzero_streamed` — `Ok` on a success
status, otherwise `Err(NonZeroExitAlreadyStreamed)` keeping name and
output. -/
def nonzero_streamed (name : String) (output : Output) :
    Except CmdError NamedOutput :=
  if output.status.success then .ok { name := name, output := output }
  else .error (.NonZeroExitAlreadyStreamed { name := name, output := output })

/-- src/lib.rs lines 943-953: `nonzero_captured` — `Ok` on a success
status, otherwise `Err(NonZeroExitNotStreamed)` keeping name and output. -/
def nonzero_captured (name : String) (output : Output) :
    Except CmdError NamedOutput :=
  if output.status.success then .ok { name := name, output := output }
  else .error (.NonZeroExitNotStreamed { name := name, output := output })

/-- src/lib.rs lines 465-484: `CommandWithName::stream_output` — run
`output_and_write_streams`, turn a launch error into
`CmdError::SystemError(name, io_error)`, wrap a successful `Output` with
the name, then apply `nonzero_streamed`. -/
def stream_output (name : String) (spawn_result : Except IoError Child)
    (stdout_write stderr_write : List Nat) :
    Except CmdError NamedOutput × List Nat × List Nat :=
  let r := output_and_write_streams spawn_result stdout_write stderr_write
  (match r.1 with
   | .error io_error => .error (.SystemError name io_error)
   | .ok output => nonzero_streamed name output,
   r.2)

/-- A sink whose `write_all` and `flush` always fail with the given error
(used to exercise the fail-fast paths of `TeeWrite`). -/
def fail_writer (e : IoError) : WriteImpl Unit where
  write_all _ _ := .error e
  flush _ := .error e

/-- The bytes of the string "Hello World!" (ASCII, hence also its UTF-8). -/
def helloWorldBytes : List Nat := "Hello World!".data.map Char.toNat

/-- `vec_writer.write_all` appends and always succeeds (definitional). -/
theorem vec_writer_write_all (s buf : List Nat) :
    vec_writer.write_all s buf = .ok (s ++ buf) := rfl

/-- Writing a chunk list through a tee whose sink A is a `Vec` buffer and
whose sink B preserves a byte log: on overall success, A holds its old
contents followed by the concatenation of the chunks, B's log likewise, and
the returned counts are the chunk lengths. -/
theorem writeChunks_log_spec {β : Type} (wb : WriteImpl β) (log : β → List Nat)
    (hlog : ∀ s buf s', wb.write_all s buf = .ok s' → log s' = log s ++ buf) :
    ∀ (chunks : List (List Nat)) (a0 : List Nat) (b0 : β)
      (t' : TeeWrite (List Nat) β) (ns : List Nat),
      TeeWrite.writeChunks vec_writer wb ⟨a0, b0⟩ chunks = .ok (t', ns) →
      t'.inner_a = a0 ++ chunks.flatten ∧
        log t'.inner_b = log b0 ++ chunks.flatten ∧
        ns = chunks.map List.length := by
  intro chunks
  induction chunks with
  | nil =>
    intro a0 b0 t' ns h
    simp only [TeeWrite.writeChunks, Except.ok.injEq, Prod.mk.injEq] at h
    obtain ⟨h1, h2⟩ := h
    subst h1
    subst h2
    simp
  | cons c rest ih =>
    intro a0 b0 t' ns h
    cases hb : wb.write_all b0 c with
    | error e =>
      simp only [TeeWrite.writeChunks, TeeWrite.write, vec_writer_write_all, hb] at h
      exact absurd h (by simp)
    | ok b1 =>
      simp only [TeeWrite.writeChunks, TeeWrite.write, vec_writer_write_all, hb] at h
      cases hr : TeeWrite.writeChunks vec_writer wb ⟨a0 ++ c, b1⟩ rest with
      | error e =>
        rw [hr] at h
        exact absurd h (by simp)
      | ok p =>
        obtain ⟨t2, ns2⟩ := p
        rw [hr] at h
        simp only [Except.ok.injEq, Prod.mk.injEq] at h
        obtain ⟨ht, hn⟩ := h
        subst ht
        subst hn
        obtain ⟨hA, hB, hN⟩ := ih (a0 ++ c) b1 t2 ns2 hr
        refine ⟨?_, ?_, ?_⟩
        · rw [hA]
          simp [List.append_assoc]
        · rw [hB, hlog b0 c b1 hb]
          simp [List.append_assoc]
        · rw [hN]
          simp

/-- Draining a chunked stream through a tee over two `Vec` buffers always
succeeds: both buffers extend by the stream's bytes and the counts are the
chunk lengths. In particular `std::io::copy` of an in-memory stream through
such a tee does not depend on how the stream is cut into read chunks. -/
theorem writeChunks_vec_ok (chunks : List (List Nat))
    (t : TeeWrite (List Nat) (List Nat)) :
    TeeWrite.writeChunks vec_writer vec_writer t chunks =
      .ok (⟨t.inner_a ++ chunks.flatten, t.inner_b ++ chunks.flatten⟩,
        chunks.map List.length) := by
  induction chunks generalizing t with
  | nil => simp [TeeWrite.writeChunks]
  | cons c rest ih =>
    simp only [TeeWrite.writeChunks, TeeWrite.write, vec_writer_write_all]
    rw [ih ⟨t.inner_a ++ c, t.inner_b ++ c⟩]
    simp [List.append_assoc]

/-- Claim C1: every child that writes M bytes to stderr gets all M bytes
back in `output.stderr`, because the stderr drain task reads the child's
stderr handle. The code violates this: line 26 of src/command.rs takes
`child.stdout` a second time (already `None` after line 23), so the stderr
pipe is never drained. Concretely, for a child that writes nothing to
stdout, the single byte 42 to stderr, and exits 0, `output_and_write_streams`
returns an `Output` whose stderr buffer is empty — not the `[42]` the claim
requires. -/
theorem C1_stderr_pipe_never_drained :
    output_and_write_streams (.ok ⟨some [], some [42], ⟨0⟩⟩) [] [] =
      (.ok ⟨⟨0⟩, [], []⟩, [], []) ∧
    Output.stderr ⟨⟨0⟩, [], []⟩ ≠ [42] :=
  ⟨rfl, by decide⟩

/-- Claim C2: for every chunk sequence written through a `TeeWrite` whose
writes all succeed, the buffer sink A and the external sink B receive
byte-for-byte identical data in identical order — both equal to the
concatenation of the input chunks appended to their prior contents — and
each write returns the full length of its chunk. Sink B is any writer whose
successful writes append to a byte log. -/
theorem C2_tee_duplicates_exactly {β : Type} (wb : WriteImpl β)
    (log : β → List Nat)
    (hlog : ∀ s buf s', wb.write_all s buf = .ok s' → log s' = log s ++ buf)
    (chunks : List (List Nat)) (a0 : List Nat) (b0 : β)
    (t' : TeeWrite (List Nat) β) (ns : List Nat)
    (h : TeeWrite.writeChunks vec_writer wb ⟨a0, b0⟩ chunks = .ok (t', ns)) :
    t'.inner_a = a0 ++ chunks.flatten ∧
      log t'.inner_b = log b0 ++ chunks.flatten ∧
      ns = chunks.map List.length :=
  writeChunks_log_spec wb log hlog chunks a0 b0 t' ns h

/-- Witness for C2 at a concrete input: chunks [1,2] then [3] through a tee
of two `Vec` buffers starting empty. -/
theorem C2_witness :
    (⟨[1, 2, 3], [1, 2, 3]⟩ : TeeWrite (List Nat) (List Nat)).inner_a =
        [] ++ [[1, 2], [3]].flatten ∧
      id (⟨[1, 2, 3], [1, 2, 3]⟩ : TeeWrite (List Nat) (List Nat)).inner_b =
        id ([] : List Nat) ++ [[1, 2], [3]].flatten ∧
      [2, 1] = [[1, 2], [3]].map List.length :=
  C2_tee_duplicates_exactly vec_writer id
    (fun s buf s' h => by injection h with h2; exact h2.symm)
    [[1, 2], [3]] [] [] ⟨[1, 2, 3], [1, 2, 3]⟩ [2, 1] rfl

/-- Claim C3: `TeeWrite` is fail-fast, A before B: a failed write to sink A
short-circuits (sink B is not attempted — the result is the same for any
sink B state and writer) and returns A's error; `flush` flushes A first and
flushes B only if A's flush succeeded. -/
theorem C3_tee_fail_fast {α β : Type} (wa : WriteImpl α) (wb wb' : WriteImpl β)
    (a : α) (b b' : β) (buf : List Nat) (e : IoError) :
    (wa.write_all a buf = .error e →
      TeeWrite.write wa wb ⟨a, b⟩ buf = .error e ∧
      TeeWrite.write wa wb' ⟨a, b'⟩ buf = .error e) ∧
    (wa.flush a = .error e →
      TeeWrite.flush wa wb ⟨a, b⟩ = .error e ∧
      TeeWrite.flush wa wb' ⟨a, b'⟩ = .error e) ∧
    (∀ a1 b1, wa.flush a = .ok a1 → wb.flush b = .ok b1 →
      TeeWrite.flush wa wb ⟨a, b⟩ = .ok ⟨a1, b1⟩) ∧
    (∀ a1 eb, wa.flush a = .ok a1 → wb.flush b = .error eb →
      TeeWrite.flush wa wb ⟨a, b⟩ = .error eb) := by
  refine ⟨fun h => ?_, fun h => ?_, fun a1 b1 h1 h2 => ?_, fun a1 eb h1 h2 => ?_⟩
  · exact ⟨by simp [TeeWrite.write, h], by simp [TeeWrite.write, h]⟩
  · exact ⟨by simp [TeeWrite.flush, h], by simp [TeeWrite.flush, h]⟩
  · simp [TeeWrite.flush, h1, h2]
  · simp [TeeWrite.flush, h1, h2]

/-- Witness for C3 at a concrete input: a sink A that always fails with a
given error, and `Vec` buffer sinks where flush succeeds. -/
theorem C3_witness :
    (TeeWrite.write (fail_writer ⟨some 5, "boom"⟩) vec_writer ⟨(), [9]⟩ [1] =
        .error ⟨some 5, "boom"⟩ ∧
      TeeWrite.write (fail_writer ⟨some 5, "boom"⟩) vec_writer ⟨(), [8]⟩ [1] =
        .error ⟨some 5, "boom"⟩) ∧
    TeeWrite.flush vec_writer vec_writer ⟨[4], [7]⟩ = .ok ⟨[4], [7]⟩ :=
  ⟨(C3_tee_fail_fast (fail_writer ⟨some 5, "boom"⟩) vec_writer vec_writer
      () [9] [8] [1] ⟨some 5, "boom"⟩).1 rfl,
   (C3_tee_fail_fast vec_writer vec_writer vec_writer
      [4] [7] [7] [] ⟨some 5, "boom"⟩).2.2.1 [4] [7] rfl rfl⟩

/-- Claim C4: if spawning the child fails, `output_and_write_streams`
returns the launch error immediately with both sinks untouched (no drain
task ran, no bytes written), and `stream_output` wraps it as
`CmdError::SystemError` carrying the command name and the OS error — never
an `Output`/`NamedOutput`. -/
theorem C4_spawn_failure_immediate (e : IoError) (name : String)
    (stdout_write stderr_write : List Nat) :
    output_and_write_streams (.error e) stdout_write stderr_write =
      (.error e, stdout_write, stderr_write) ∧
    stream_output name (.error e) stdout_write stderr_write =
      (.error (.SystemError name e), stdout_write, stderr_write) :=
  ⟨rfl, rfl⟩

/-- Claim C5: `nonzero_captured` and `nonzero_streamed` return `Ok` with
the unchanged name and output exactly when the status is a success; on a
non-success status they return an `Err` whose `NamedOutput` keeps the same
name, status, stdout and stderr — the captured buffers are never discarded
or altered. -/
theorem C5_nonzero_keeps_output (name : String) (output : Output) :
    (output.status.success = true →
      nonzero_captured name output = .ok ⟨name, output⟩ ∧
      nonzero_streamed name output = .ok ⟨name, output⟩) ∧
    (output.status.success = false →
      nonzero_captured name output =
        .error (.NonZeroExitNotStreamed ⟨name, output⟩) ∧
      nonzero_streamed name output =
        .error (.NonZeroExitAlreadyStreamed ⟨name, output⟩)) := by
  constructor <;> intro h <;>
    exact ⟨by simp [nonzero_captured, h], by simp [nonzero_streamed, h]⟩

/-- Witness for C5 at a concrete input: exit status with raw wait status
256 (exit code 1), captured stdout [104] and stderr [33] are kept in the
error. -/
theorem C5_witness :
    nonzero_captured "cmd" ⟨⟨256⟩, [104], [33]⟩ =
      .error (.NonZeroExitNotStreamed ⟨"cmd", ⟨⟨256⟩, [104], [33]⟩⟩) ∧
    nonzero_streamed "cmd" ⟨⟨256⟩, [104], [33]⟩ =
      .error (.NonZeroExitAlreadyStreamed ⟨"cmd", ⟨⟨256⟩, [104], [33]⟩⟩) :=
  (C5_nonzero_keeps_output "cmd" ⟨⟨256⟩, [104], [33]⟩).2 (by decide)

/-- Claim C6: a drain thread that terminated abnormally (panicked) has its
payload re-raised when joined (`panic::resume_unwind`): the scope's result
is that propagated fault — it is never a normal result, in particular never
`Ok(0)` as if the stream were empty. -/
theorem C6_panic_propagates {π : Type} (p : π)
    (stdout_thread stderr_thread : Option (JoinResult π (Except IoError Nat)))
    (wait : Except IoError ExitStatus) :
    (stdout_thread = some (.panicked p) →
      scope_join stdout_thread stderr_thread wait = .error p) ∧
    ((∀ q, stdout_thread ≠ some (.panicked q)) →
      stderr_thread = some (.panicked p) →
      scope_join stdout_thread stderr_thread wait = .error p) ∧
    ((stdout_thread = some (.panicked p) ∨ stderr_thread = some (.panicked p)) →
      ∀ r, scope_join stdout_thread stderr_thread wait ≠ .ok r) := by
  refine ⟨fun h => ?_, fun hq h => ?_, fun hor r => ?_⟩
  · subst h
    rfl
  · subst h
    cases stdout_thread with
    | none => rfl
    | some j =>
      cases j with
      | finished v => rfl
      | panicked q => exact absurd rfl (hq q)
  · cases hor with
    | inl h =>
      subst h
      simp [scope_join, join_or_resume]
    | inr h =>
      subst h
      cases stdout_thread with
      | none => simp [scope_join, join_or_resume]
      | some j =>
        cases j with
        | finished v => simp [scope_join, join_or_resume]
        | panicked _ => simp [scope_join, join_or_resume]

/-- Witness for C6 at a concrete input: a panicked stdout thread with
payload 7, and a panicked stderr thread next to a finished stdout thread. -/
theorem C6_witness :
    scope_join (some (.panicked 7)) (none : Option (JoinResult Nat (Except IoError Nat)))
        (.ok ⟨0⟩) = .error 7 ∧
    scope_join (none : Option (JoinResult Nat (Except IoError Nat)))
        (some (.panicked 7)) (.ok ⟨0⟩) = .error 7 :=
  ⟨(C6_panic_propagates 7 (some (.panicked 7)) none (.ok ⟨0⟩)).1 rfl,
   (C6_panic_propagates 7 none (some (.panicked 7)) (.ok ⟨0⟩)).2.1
     (fun _ h => Option.noConfusion h) rfl⟩

/-- Claim C7: each invocation of `output_and_write_streams` constructs its
capture buffers empty, so the returned `io::Result<Output>` is independent
of the external sinks' prior contents (two sequential invocations on the
same sinks share no buffer state and the second call's captured buffers
start empty); and a tee write onto `Vec` buffers only ever appends, both
for a single write and for any chunk sequence. -/
theorem C7_buffers_fresh_and_append_only :
    (∀ (spawn_result : Except IoError Child) (so se so' se' : List Nat),
      (output_and_write_streams spawn_result so se).1 =
      (output_and_write_streams spawn_result so' se').1) ∧
    (∀ (t : TeeWrite (List Nat) (List Nat)) (buf : List Nat)
        (t' : TeeWrite (List Nat) (List Nat)) (n : Nat),
      TeeWrite.write vec_writer vec_writer t buf = .ok (t', n) →
      t'.inner_a = t.inner_a ++ buf ∧ t'.inner_b = t.inner_b ++ buf) ∧
    (∀ (chunks : List (List Nat)) (t : TeeWrite (List Nat) (List Nat))
        (t' : TeeWrite (List Nat) (List Nat)) (ns : List Nat),
      TeeWrite.writeChunks vec_writer vec_writer t chunks = .ok (t', ns) →
      ∃ ext, t'.inner_a = t.inner_a ++ ext ∧ t'.inner_b = t.inner_b ++ ext) := by
  refine ⟨fun spawn_result so se so' se' => ?_, fun t buf t' n h => ?_,
    fun chunks t t' ns h => ?_⟩
  · cases spawn_result with
    | error e => rfl
    | ok child =>
      obtain ⟨o, errs, w⟩ := child
      cases o <;> rfl
  · simp only [TeeWrite.write, vec_writer_write_all, Except.ok.injEq,
      Prod.mk.injEq] at h
    obtain ⟨h1, h2⟩ := h
    subst h1
    exact ⟨rfl, rfl⟩
  · rw [writeChunks_vec_ok] at h
    simp only [Except.ok.injEq, Prod.mk.injEq] at h
    obtain ⟨h1, h2⟩ := h
    subst h1
    exact ⟨chunks.flatten, rfl, rfl⟩

/-- Witness for C7 at concrete inputs: one write of [6] onto buffers [5],
and the chunk sequence [[1],[2]] onto empty buffers. -/
theorem C7_witness :
    ((⟨[5, 6], [5, 6]⟩ : TeeWrite (List Nat) (List Nat)).inner_a = [5] ++ [6] ∧
      (⟨[5, 6], [5, 6]⟩ : TeeWrite (List Nat) (List Nat)).inner_b = [5] ++ [6]) ∧
    (∃ ext, (⟨[1, 2], [1, 2]⟩ : TeeWrite (List Nat) (List Nat)).inner_a =
        ([] : List Nat) ++ ext ∧
      (⟨[1, 2], [1, 2]⟩ : TeeWrite (List Nat) (List Nat)).inner_b =
        ([] : List Nat) ++ ext) :=
  ⟨C7_buffers_fresh_and_append_only.2.1 ⟨[5], [5]⟩ [6] ⟨[5, 6], [5, 6]⟩ 1 rfl,
   C7_buffers_fresh_and_append_only.2.2 [[1], [2]] ⟨[], []⟩ ⟨[1, 2], [1, 2]⟩
     [1, 1] rfl⟩

/-- Claim C8: running `echo -n "Hello World!"` (a child that writes the
bytes of "Hello World!" to stdout, nothing to stderr, and exits 0) through
`output_and_write_streams` with two empty sinks yields an `Output` with
stdout buffer "Hello World!", empty stderr buffer, and a success status
(exit code 0); the same bytes are delivered to the stdout sink. -/
theorem C8_echo_hello_world :
    output_and_write_streams (.ok ⟨some helloWorldBytes, some [], ⟨0⟩⟩) [] [] =
      (.ok ⟨⟨0⟩, helloWorldBytes, []⟩, helloWorldBytes, []) ∧
    (ExitStatus.mk 0).success = true ∧ (ExitStatus.mk 0).code = some 0 :=
  ⟨rfl, by decide, by decide⟩

/-- Claim C9: `From<CmdError> for NamedOutput` maps `SystemError(name, e)`
to a `NamedOutput` with that name, empty stdout, stderr equal to the UTF-8
bytes of e's display string, and a status built from e's raw OS error code
(defaulting to -1); both non-zero-exit variants yield the contained
`NamedOutput` unchanged. Hence the command name is recoverable from every
variant. -/
theorem C9_from_cmderror (name : String) (e : IoError) (named : NamedOutput) :
    NamedOutput.fromCmdError (.SystemError name e) =
      ⟨name, ⟨ExitStatus.from_raw (e.raw_os_error.getD (-1)), [],
        strBytes e.message⟩⟩ ∧
    NamedOutput.fromCmdError (.NonZeroExitNotStreamed named) = named ∧
    NamedOutput.fromCmdError (.NonZeroExitAlreadyStreamed named) = named ∧
    ∀ err : CmdError, (NamedOutput.fromCmdError err).name = err.name := by
  refine ⟨rfl, rfl, rfl, fun err => ?_⟩
  cases err <;> rfl

/-- Claim C10: `CmdError::status` returns the wrapped output's original
exit status for both non-zero-exit variants, and for `SystemError` an
`ExitStatus` built from the raw OS error code (defaulting to -1 when
absent); an error built by `nonzero_captured` or `nonzero_streamed` keeps
the output's status, which is never a success status. -/
theorem C10_cmderror_status (name : String) (output : Output)
    (named : NamedOutput) (e : IoError) :
    CmdError.status (.NonZeroExitNotStreamed named) = named.output.status ∧
    CmdError.status (.NonZeroExitAlreadyStreamed named) = named.output.status ∧
    CmdError.status (.SystemError name e) =
      ExitStatus.from_raw (e.raw_os_error.getD (-1)) ∧
    (∀ err, nonzero_captured name output = .error err →
      err.status = output.status ∧ err.status.success = false) ∧
    (∀ err, nonzero_streamed name output = .error err →
      err.status = output.status ∧ err.status.success = false) := by
  refine ⟨rfl, rfl, rfl, fun err h => ?_, fun err h => ?_⟩ <;>
    cases hs : output.status.success <;>
      simp [nonzero_captured, nonzero_streamed, hs] at h <;>
        subst h <;>
          exact ⟨rfl, hs⟩

/-- Witness for C10 at a concrete input: raw wait status 256 (exit code 1)
with captured output kept; the error's status is the original one and is
not a success. -/
theorem C10_witness :
    CmdError.status (.NonZeroExitNotStreamed ⟨"cmd2", ⟨⟨256⟩, [104], [33]⟩⟩) =
      Output.status ⟨⟨256⟩, [104], [33]⟩ ∧
    (CmdError.status
      (.NonZeroExitNotStreamed ⟨"cmd2", ⟨⟨256⟩, [104], [33]⟩⟩)).success = false :=
  (C10_cmderror_status "cmd2" ⟨⟨256⟩, [104], [33]⟩ ⟨"", ⟨⟨0⟩, [], []⟩⟩
      ⟨none, ""⟩).2.2.2.1
    (.NonZeroExitNotStreamed ⟨"cmd2", ⟨⟨256⟩, [104], [33]⟩⟩) rfl
